import Mathlib

/-!
Shallow embedding of the CareerMate Streamlit chatbot
(`src/streamlit_app.py`) for checking its natural-language specification.

The script is a single-file conversational assistant.  The parts the
claims talk about are embedded here as pure Lean functions:

* the external-data fetchers `_query_news` / `_query_events`, with the
  HTTP call and JSON body modelled by an explicit `Option` payload
  (`none` = network error, non-2xx status via `raise_for_status`, or a
  body that fails to parse), Python `KeyError`-raising subscripts
  modelled in the `Option` monad, and `st.warning` calls counted;
* the `@st.cache_data`-wrapped aggregator `fetch_news_and_events`,
  with the memo table made explicit as an association list keyed by the
  argument pair `(profession, location)`;
* the `/brief` routing test `user_input.strip().lower().startswith("/brief")`
  with Python `str.strip` / `str.lower` / `str.startswith` embedded
  character-wise;
* the briefing augmentation string built at lines 172-181;
* the top-level `if user_input:` handler that appends the user turn,
  optionally the system augmentation turn, and the assistant turn
  (`handleInput`), the message display loop that skips system turns
  (`displayLoop`), and the payload sent to the model (`modelPayload`).
-/

namespace CareerMate

/-- One chat message kept in `st.session_state.messages`:
a dict with keys "role" and "content". -/
structure Turn where
  role : String
  content : String

deriving instance DecidableEq, Repr for Turn

/-- News DTO built by `_query_news`: title, url, source name. -/
structure NewsItem where
  title : String
  url : String
  source : String

deriving instance DecidableEq, Repr for NewsItem

/-- Event DTO built by `_query_events`: name, url, start date (first 10
characters of `start.local`), venue name. -/
structure EventItem where
  name : String
  url : String
  start : String
  venue : String

deriving instance DecidableEq, Repr for EventItem

/-! Raw provider payloads.  A field that Python would reach with a
raising subscript (`art["title"]`, `ev["name"]["text"]`, ...) is an
`Option`; `none` models the key being absent, in which case the Python
expression raises `KeyError` inside the `try` block. -/

/-- The `art["source"]` object of a news payload; `name?` models the
presence of its "name" key. -/
structure RawSource where
  name? : Option String

deriving instance DecidableEq, Repr for RawSource

/-- One element of the `articles` list of the news provider body. -/
structure RawArticle where
  title? : Option String
  url? : Option String
  source? : Option RawSource

deriving instance DecidableEq, Repr for RawArticle

/-- The parsed news provider body; `articles?` models
`data.get("articles", [])`, which defaults to `[]` when absent. -/
structure NewsPayload where
  articles? : Option (List RawArticle)

deriving instance DecidableEq, Repr for NewsPayload

/-- The `ev["name"]` object of an event; `text?` models its "text" key. -/
structure RawName where
  text? : Option String

deriving instance DecidableEq, Repr for RawName

/-- The `ev["start"]` object of an event; `localStr?` models its
"local" key (an ISO timestamp string). -/
structure RawStart where
  localStr? : Option String

deriving instance DecidableEq, Repr for RawStart

/-- The `ev["venue"]` object of an event; reached only through
`ev.get("venue", {}).get("name", "")`, which never raises. -/
structure RawVenue where
  name? : Option String

deriving instance DecidableEq, Repr for RawVenue

/-- One element of the `events` list of the events provider body. -/
structure RawEvent where
  name? : Option RawName
  url? : Option String
  start? : Option RawStart
  venue? : Option RawVenue

deriving instance DecidableEq, Repr for RawEvent

/-- The parsed events provider body; `events?` models
`data.get("events", [])`. -/
structure EventsPayload where
  events? : Option (List RawEvent)

deriving instance DecidableEq, Repr for EventsPayload

/-- The module-level configuration read from the sidebar, together with
what each provider would answer if called now.  `newsProvider = none`
means the `requests.get` / `raise_for_status` / `res.json()` chain
raises (network error, non-2xx status, or malformed body). -/
structure Env where
  newsKey : String
  eventKey : String
  profession : String
  location : String
  newsProvider : Option NewsPayload
  eventsProvider : Option EventsPayload

deriving instance DecidableEq, Repr for Env

/-- Result of one fetcher call: the returned list, how many HTTP
requests were issued, and how many `st.warning` messages were shown. -/
structure QueryResult (α : Type) where
  items : List α
  netCalls : Nat
  warnings : Nat

deriving instance DecidableEq, Repr for QueryResult

/-- Field extraction for one article, from the dict comprehension
`{"title": art["title"], "url": art["url"], "source": art["source"]["name"]}`.
Every subscript raises `KeyError` when the key is absent, so the whole
extraction is in the `Option` monad. -/
def extractArticle (art : RawArticle) : Option NewsItem := do
  let t ← art.title?
  let u ← art.url?
  let s ← art.source?
  let n ← s.name?
  pure ⟨t, u, n⟩

/-- All-or-nothing mapping: Python's list comprehension / accumulation
loop evaluates the extractor left to right and the first raising
element aborts the whole computation, discarding any partial list. -/
def extractAll (f : α → Option β) : List α → Option (List β)
  | [] => some []
  | x :: xs => do
    let y ← f x
    let ys ← extractAll f xs
    pure (y :: ys)

/-- Body of the `try` block of `_query_news` after the HTTP call:
`none` when the call itself raised, otherwise the list comprehension
over `data.get("articles", [])`, which raises (collapsing to `none`)
as soon as one article misses a required key. -/
def newsAttempt (provider : Option NewsPayload) : Option (List NewsItem) := do
  let payload ← provider
  extractAll extractArticle (payload.articles?.getD [])

/-- Embedding of `_query_news` (src/streamlit_app.py lines 46-68).
Python's `if not news_api_key` is the emptiness test on the key.  On
any exception inside the `try` block the function warns once and
returns `[]`; it is a total function, so no exception escapes. -/
def _query_news (env : Env) : QueryResult NewsItem :=
  if env.newsKey = "" then ⟨[], 0, 0⟩
  else
    match newsAttempt env.newsProvider with
    | some items => ⟨items, 1, 0⟩
    | none => ⟨[], 1, 1⟩

/-- The venue field of one event:
`ev.get("venue", {}).get("name", "")` — total, defaults to `""`. -/
def eventVenue (ev : RawEvent) : String :=
  match ev.venue? with
  | none => ""
  | some v => v.name?.getD ""

/-- Field extraction for one event, from the loop body of
`_query_events`: `ev["name"]["text"]`, `ev["url"]`,
`ev["start"]["local"][:10]` all raise on a missing key, while the
venue lookup is defensive. -/
def extractEvent (ev : RawEvent) : Option EventItem := do
  let nm ← ev.name?
  let t ← nm.text?
  let u ← ev.url?
  let s ← ev.start?
  let l ← s.localStr?
  pure ⟨t, u, l.take 10, eventVenue ev⟩

/-- Body of the `try` block of `_query_events` after the HTTP call:
the loop over `data.get("events", [])[:3]` builds the list unless some
event raises, in which case the partial list is discarded by the
`except` branch (hence all-or-nothing `mapM`). -/
def eventsAttempt (provider : Option EventsPayload) : Option (List EventItem) := do
  let payload ← provider
  extractAll extractEvent ((payload.events?.getD []).take 3)

/-- Embedding of `_query_events` (src/streamlit_app.py lines 71-102).
Python's `if not event_api_key or not location` is the disjunction of
the two emptiness tests. -/
def _query_events (env : Env) : QueryResult EventItem :=
  if env.eventKey = "" ∨ env.location = "" then ⟨[], 0, 0⟩
  else
    match eventsAttempt env.eventsProvider with
    | some items => ⟨items, 1, 0⟩
    | none => ⟨[], 1, 1⟩

/-! Aggregation cache (`@st.cache_data` on `fetch_news_and_events`). -/

/-- The memo table of `st.cache_data`: entries keyed by the exact
argument pair `(profession, location)`. -/
def Cache : Type := List ((String × String) × (List NewsItem × List EventItem))

/-- Lookup in the memo table by exact (case-sensitive) equality of the
key pair, as `st.cache_data` hashes the argument values. -/
def cacheLookup (key : String × String) :
    Cache → Option (List NewsItem × List EventItem)
  | [] => none
  | (k, v) :: rest => if k = key then some v else cacheLookup key rest

/-- Result of one call to the cached aggregator. -/
structure FetchOutcome where
  result : List NewsItem × List EventItem
  cache : Cache
  netCalls : Nat
  warnings : Nat

/-- Embedding of `fetch_news_and_events` (src/streamlit_app.py lines
106-108) together with the memoization done by its `@st.cache_data`
decorator: on a key hit the cached tuple is returned and the body
(hence both fetchers) is not run; on a miss the body runs and the
tuple is stored under the key. -/
def fetch_news_and_events (env : Env) (cache : Cache) : FetchOutcome :=
  match cacheLookup (env.profession, env.location) cache with
  | some r => ⟨r, cache, 0, 0⟩
  | none =>
    let qn := _query_news env
    let qe := _query_events env
    let r := (qn.items, qe.items)
    ⟨r, ((env.profession, env.location), r) :: cache,
      qn.netCalls + qe.netCalls, qn.warnings + qe.warnings⟩

/-! Command routing: `user_input.strip().lower().startswith("/brief")`
(src/streamlit_app.py line 167). -/

/-- Python `str.isspace` for the ASCII whitespace characters that
`str.strip` removes. -/
def pyIsSpace (c : Char) : Bool :=
  c == ' ' || c == '\t' || c == '\n' || c == '\r' || c == '\x0b' || c == '\x0c'

/-- Python `str.strip()` on the character list: drop whitespace from
both ends. -/
def pyStrip (l : List Char) : List Char :=
  ((l.dropWhile pyIsSpace).reverse.dropWhile pyIsSpace).reverse

/-- Python `str.startswith` on character lists. -/
def startsWithList : List Char → List Char → Bool
  | [], _ => true
  | _ :: _, [] => false
  | p :: ps, c :: cs => p == c && startsWithList ps cs

/-- The routing test on a raw user text, exactly as written in the
source: strip, lowercase, then test the "/brief" head. -/
def isBriefCmd (s : String) : Bool :=
  startsWithList "/brief".data ((pyStrip s.data).map Char.toLower)

/-- Dispatch result of the command router. -/
inductive Route where
  | brief
  | plainChat

deriving instance DecidableEq, Repr for Route

/-- The router: `/brief` commands go to the briefing flow, everything
else falls through to plain chat. -/
def route (s : String) : Route :=
  if isBriefCmd s then .brief else .plainChat

/-! The briefing augmentation (src/streamlit_app.py lines 172-181). -/

/-- Python `"\n".join(xs)`. -/
def pyJoin (sep : String) : List String → String
  | [] => ""
  | [x] => x
  | x :: y :: rest => x ++ sep ++ pyJoin sep (y :: rest)

/-- One news bullet: `f"- {n['title']} ({n['source']})"`. -/
def newsLine (n : NewsItem) : String :=
  "- " ++ n.title ++ " (" ++ n.source ++ ")"

/-- One event bullet: `f"- {e['start']} {e['name']} @ {e['venue']}"`. -/
def eventLine (e : EventItem) : String :=
  "- " ++ e.start ++ " " ++ e.name ++ " @ " ++ e.venue

/-- The closing instruction appended to every briefing augmentation. -/
def briefInstruction : String :=
  "Please craft a Korean daily briefing in bullet points (max 120 words), then suggest next actions."

/-- Embedding of the `briefing_context` string built by successive
`+=` in the `/brief` branch of the handler. -/
def briefing_context (news : List NewsItem) (events : List EventItem) : String :=
  let c0 : String := "You gathered the following data:\n\n"
  let c1 : String :=
    if news.isEmpty then c0
    else c0 ++ "Recent news headlines:\n" ++ pyJoin "\n" (news.map newsLine) ++ "\n\n"
  let c2 : String :=
    if events.isEmpty then c1
    else c1 ++ "Upcoming events:\n" ++ pyJoin "\n" (events.map eventLine) ++ "\n\n"
  let c3 : String :=
    if news.isEmpty && events.isEmpty then c2 ++ "(No external data available)\n\n"
    else c2
  c3 ++ briefInstruction

/-- The "Recent news" section as the template emits it: present
exactly when `news` is non-empty. -/
def newsSection (news : List NewsItem) : String :=
  if news = [] then ""
  else "Recent news headlines:\n" ++ pyJoin "\n" (news.map newsLine) ++ "\n\n"

/-- The "Upcoming events" section as the template emits it: present
exactly when `events` is non-empty. -/
def eventsSection (events : List EventItem) : String :=
  if events = [] then ""
  else "Upcoming events:\n" ++ pyJoin "\n" (events.map eventLine) ++ "\n\n"

/-- The marker emitted exactly when both lists are empty. -/
def noDataMarker (news : List NewsItem) (events : List EventItem) : String :=
  if news = [] ∧ events = [] then "(No external data available)\n\n" else ""

/-- Substring containment on strings, used to state that the
augmentation mentions an item. -/
def strContains (hay needle : String) : Prop :=
  ∃ a b, hay = a ++ needle ++ b

/-! The per-turn handler (src/streamlit_app.py lines 159-200). -/

/-- Session state: the transcript plus the `st.cache_data` memo table. -/
structure SessionState where
  messages : List Turn
  cache : Cache

/-- The list-of-dicts payload handed to
`client.chat.completions.create`: one `{"role": ..., "content": ...}`
pair per stored message, in order, system turns included. -/
def modelPayload (msgs : List Turn) : List Turn :=
  msgs.map fun m => ⟨m.role, m.content⟩

/-- Embedding of the `if user_input:` block: a falsy (empty) input
does nothing; otherwise the user turn is appended, a `/brief` command
additionally fetches data and appends the augmentation as a system
turn, and the streamed model reply is appended as the assistant turn.
`streamed` is the text accumulated by `st.write_stream`. -/
def handleInput (env : Env) (st : SessionState) (input streamed : String) :
    SessionState :=
  if input = "" then st
  else
    let msgs1 := st.messages ++ [⟨"user", input⟩]
    if isBriefCmd input then
      let fr := fetch_news_and_events env st.cache
      let msgs2 := msgs1 ++ [⟨"system", briefing_context fr.result.1 fr.result.2⟩]
      ⟨msgs2 ++ [⟨"assistant", streamed⟩], fr.cache⟩
    else
      ⟨msgs1 ++ [⟨"assistant", streamed⟩], st.cache⟩

/-- The payload the handler sends to the model for this input:
`none` when the falsy-input guard skips the block, otherwise the full
message list at the moment of the completion call (user turn and, for
`/brief`, the augmentation already appended; the assistant turn not
yet). -/
def invocationPayload (env : Env) (st : SessionState) (input : String) :
    Option (List Turn) :=
  if input = "" then none
  else
    let msgs1 := st.messages ++ [⟨"user", input⟩]
    if isBriefCmd input then
      let fr := fetch_news_and_events env st.cache
      some (modelPayload (msgs1 ++ [⟨"system", briefing_context fr.result.1 fr.result.2⟩]))
    else
      some (modelPayload msgs1)

/-- The message display loop (src/streamlit_app.py lines 150-154):
`continue` on system turns, render everything else in order. -/
def displayLoop : List Turn → List Turn
  | [] => []
  | m :: rest => if m.role = "system" then displayLoop rest else m :: displayLoop rest

/-- One submitted input: the configuration at that moment, the raw
text, and the streamed reply text. -/
structure InputEvent where
  env : Env
  input : String
  streamed : String

/-- Run a session: fold the handler over a list of submitted inputs. -/
def runSession (st : SessionState) : List InputEvent → SessionState
  | [] => st
  | ev :: rest => runSession (handleInput ev.env st ev.input ev.streamed) rest

/-- All payloads sent to the model while running a session. -/
def runPayloads (st : SessionState) : List InputEvent → List (List Turn)
  | [] => []
  | ev :: rest =>
    (match invocationPayload ev.env st ev.input with
      | none => []
      | some p => [p]) ++
    runPayloads (handleInput ev.env st ev.input ev.streamed) rest

/-! Helper lemmas shared by the claim theorems. -/

/-- Every string contains itself. -/
theorem strContains_refl (s : String) : strContains s s :=
  ⟨"", "", by simp⟩

/-- Containment is preserved by appending on the left. -/
theorem strContains_append_left (x hay needle : String)
    (h : strContains hay needle) : strContains (x ++ hay) needle := by
  obtain ⟨a, b, rfl⟩ := h
  exact ⟨x ++ a, b, by simp [String.append_assoc]⟩

/-- Containment is preserved by appending on the right. -/
theorem strContains_append_right (hay x needle : String)
    (h : strContains hay needle) : strContains (hay ++ x) needle := by
  obtain ⟨a, b, rfl⟩ := h
  exact ⟨a, b ++ x, by simp [String.append_assoc]⟩

/-- Every element of a joined list occurs in the join. -/
theorem strContains_pyJoin (sep : String) (xs : List String) (s : String)
    (h : s ∈ xs) : strContains (pyJoin sep xs) s := by
  induction xs with
  | nil => cases h
  | cons x rest ih =>
    cases rest with
    | nil =>
      have hx : s = x := by simpa using h
      subst hx
      exact strContains_refl s
    | cons y more =>
      rcases List.mem_cons.mp h with hx | hmem
      · subst hx
        exact ⟨"", sep ++ pyJoin sep (y :: more), by simp [pyJoin, String.append_assoc]⟩
      · exact strContains_append_left (x ++ sep) _ _ (ih hmem)

/-- The incrementally built briefing string equals the news-then-events
template with the no-data marker and the closing instruction. -/
theorem briefing_context_eq (news : List NewsItem) (events : List EventItem) :
    briefing_context news events =
      "You gathered the following data:\n\n" ++ newsSection news ++
        eventsSection events ++ noDataMarker news events ++ briefInstruction := by
  cases news <;> cases events <;>
    simp [briefing_context, newsSection, eventsSection, noDataMarker,
      ← String.append_assoc]

/-- Python `startswith` agrees with the existence of a trailing rest. -/
theorem startsWithList_iff (p l : List Char) :
    startsWithList p l = true ↔ ∃ t, l = p ++ t := by
  induction p generalizing l with
  | nil => simp [startsWithList]
  | cons c cs ih =>
    cases l with
    | nil => simp [startsWithList]
    | cons d ds =>
      simp only [startsWithList, Bool.and_eq_true, beq_iff_eq, ih,
        List.cons_append, List.cons.injEq]
      constructor
      · rintro ⟨rfl, t, rfl⟩
        exact ⟨t, rfl, rfl⟩
      · rintro ⟨t, rfl, rfl⟩
        exact ⟨rfl, t, rfl⟩

/-- Dropping a satisfied predicate from an all-satisfying list leaves
nothing. -/
theorem dropWhile_all {p : Char → Bool} (l : List Char)
    (h : ∀ c, c ∈ l → p c = true) : l.dropWhile p = [] := by
  induction l with
  | nil => rfl
  | cons c cs ih =>
    rw [List.dropWhile_cons, if_pos (h c (List.mem_cons_self c cs))]
    exact ih fun x hx => h x (List.mem_cons_of_mem c hx)

/-- The payload handed to the model reproduces the stored transcript
turn for turn. -/
theorem modelPayload_eq (msgs : List Turn) : modelPayload msgs = msgs :=
  List.map_id msgs

/-- Handling one input only ever appends to the transcript. -/
theorem handleInput_messages (env : Env) (st : SessionState)
    (input streamed : String) :
    ∃ tail, (handleInput env st input streamed).messages = st.messages ++ tail := by
  by_cases hne : input = ""
  · exact ⟨[], by simp [handleInput, hne]⟩
  · by_cases hb : isBriefCmd input
    · refine ⟨[⟨"user", input⟩] ++
        [⟨"system", briefing_context (fetch_news_and_events env st.cache).result.1
          (fetch_news_and_events env st.cache).result.2⟩] ++
        [⟨"assistant", streamed⟩], ?_⟩
      simp [handleInput, hne, hb, List.append_assoc]
    · exact ⟨[⟨"user", input⟩] ++ [⟨"assistant", streamed⟩],
        by simp [handleInput, hne, hb, List.append_assoc]⟩

/-- Any payload actually sent to the model extends the transcript it
started from. -/
theorem invocationPayload_extends (env : Env) (st : SessionState)
    (input : String) (p : List Turn)
    (h : invocationPayload env st input = some p) :
    ∃ tail, p = st.messages ++ tail := by
  by_cases hne : input = ""
  · simp [invocationPayload, hne] at h
  · by_cases hb : isBriefCmd input
    · simp only [invocationPayload, if_neg hne, if_pos hb, Option.some.injEq] at h
      subst h
      rw [modelPayload_eq]
      exact ⟨_, List.append_assoc _ _ _⟩
    · simp only [invocationPayload, if_neg hne, if_pos hb, if_neg hb,
        Option.some.injEq] at h
      subst h
      rw [modelPayload_eq]
      exact ⟨[⟨"user", input⟩], rfl⟩

/-! Claim theorems. -/

/-- C2: whenever a provider call in `_query_news` or `_query_events`
fails (network error, non-2xx status, or malformed payload — any
`none` outcome of the try-block body), the failure is caught inside
the fetcher, exactly one warning is emitted, the empty list is
returned, and (the fetchers being total functions) no exception
reaches the caller. -/
theorem c2_fetch_failure_degrades (env : Env) :
    (env.newsKey ≠ "" → newsAttempt env.newsProvider = none →
      _query_news env = ⟨[], 1, 1⟩) ∧
    (¬(env.eventKey = "" ∨ env.location = "") →
      eventsAttempt env.eventsProvider = none →
      _query_events env = ⟨[], 1, 1⟩) := by
  constructor
  · intro hk hf
    simp [_query_news, hk, hf]
  · intro hk hf
    simp [_query_events, hk, hf]

/-- Witness for C2: a configuration whose providers always error. -/
theorem c2_fetch_failure_degrades_witness :
    _query_news ⟨"k", "k", "designer", "Seoul", none, none⟩ = ⟨[], 1, 1⟩ ∧
    _query_events ⟨"k", "k", "designer", "Seoul", none, none⟩ = ⟨[], 1, 1⟩ :=
  ⟨(c2_fetch_failure_degrades _).1 (by decide) rfl,
   (c2_fetch_failure_degrades _).2 (by decide) rfl⟩

/-- C3 counterexample: a whitespace-only submission is NOT rejected at
the boundary — `if user_input:` only filters the falsy empty string,
so `"   "` is appended as a user turn, routed to plain chat, and a
generation happens (an assistant turn is appended). -/
theorem c3_whitespace_not_rejected_cex :
    (handleInput ⟨"", "", "", "", none, none⟩
        ⟨[⟨"system", "base"⟩], []⟩ "   " "ok").messages =
      [⟨"system", "base"⟩, ⟨"user", "   "⟩, ⟨"assistant", "ok"⟩] ∧
    (handleInput ⟨"", "", "", "", none, none⟩
        ⟨[⟨"system", "base"⟩], []⟩ "   " "ok").messages ≠
      [⟨"system", "base"⟩] := by
  decide

/-- C3 amended: only the empty (falsy) submission is rejected at the
boundary — no turn is appended and the state is unchanged — while a
whitespace-only but non-empty submission is accepted and processed as
a plain-chat turn. -/
theorem c3_empty_input_rejected_amended (env : Env) (st : SessionState)
    (s streamed : String) :
    handleInput env st "" streamed = st ∧
    (s ≠ "" → (∀ c, c ∈ s.data → pyIsSpace c = true) →
      route s = Route.plainChat ∧
      (handleInput env st s streamed).messages =
        st.messages ++ [⟨"user", s⟩, ⟨"assistant", streamed⟩]) := by
  constructor
  · simp [handleInput]
  · intro hne hsp
    have h1 : s.data.dropWhile pyIsSpace = [] := dropWhile_all _ hsp
    have hstrip : pyStrip s.data = [] := by simp [pyStrip, h1]
    have hb : isBriefCmd s = false := by
      unfold isBriefCmd
      rw [hstrip]
      decide
    refine ⟨by simp [route, hb], ?_⟩
    simp [handleInput, hne, hb]

/-- Witness for C3 amended: the whitespace-only input `"   "`. -/
theorem c3_empty_input_rejected_amended_witness :
    route "   " = Route.plainChat ∧
    (handleInput ⟨"", "", "", "", none, none⟩
        ⟨[⟨"system", "base"⟩], []⟩ "   " "ok").messages =
      [⟨"system", "base"⟩] ++ [⟨"user", "   "⟩, ⟨"assistant", "ok"⟩] :=
  (c3_empty_input_rejected_amended ⟨"", "", "", "", none, none⟩
    ⟨[⟨"system", "base"⟩], []⟩ "   " "ok").2 (by decide) (by decide)

/-- C4 counterexample: an article whose payload lacks the "title" key
does not yield an item with an empty title — the `KeyError` aborts the
whole comprehension and the fetch degrades to the empty list with one
warning. -/
theorem c4_missing_title_drops_list_cex :
    _query_news ⟨"k", "", "", "",
        some ⟨some [⟨none, some "u", some ⟨some "S"⟩⟩]⟩, none⟩ = ⟨[], 1, 1⟩ ∧
    (_query_news ⟨"k", "", "", "",
        some ⟨some [⟨none, some "u", some ⟨some "S"⟩⟩]⟩, none⟩).items ≠
      [⟨"", "u", "S"⟩] := by
  decide

/-- C4 amended: only the venue lookup is defensive — a missing venue
object, or a venue object without a name, defaults to the empty string
and the event is still produced; a missing article title (and likewise
any other required key, such as the event name text) instead fails the
whole result list, which degrades to empty with one warning. -/
theorem c4_defensive_fields_amended (k l n u s t : String)
    (hk : k ≠ "") (hl : l ≠ "") :
    _query_events ⟨"", k, "", l, none,
        some ⟨some [⟨some ⟨some n⟩, some u, some ⟨some s⟩, none⟩,
          ⟨some ⟨some n⟩, some u, some ⟨some s⟩, some ⟨none⟩⟩]⟩⟩ =
      ⟨[⟨n, u, s.take 10, ""⟩, ⟨n, u, s.take 10, ""⟩], 1, 0⟩ ∧
    _query_news ⟨k, "", "", "",
        some ⟨some [⟨none, some u, some ⟨some t⟩⟩]⟩, none⟩ = ⟨[], 1, 1⟩ ∧
    _query_events ⟨"", k, "", l, none,
        some ⟨some [⟨some ⟨none⟩, some u, some ⟨some s⟩, none⟩]⟩⟩ =
      ⟨[], 1, 1⟩ := by
  refine ⟨?_, ?_, ?_⟩
  · simp [_query_events, hk, hl, eventsAttempt, extractAll, extractEvent,
      eventVenue, Option.bind]
  · simp [_query_news, hk, newsAttempt, extractAll, extractArticle, Option.bind]
  · simp [_query_events, hk, hl, eventsAttempt, extractAll, extractEvent,
      Option.bind]

/-- Witness for C4 amended at concrete field values. -/
theorem c4_defensive_fields_amended_witness :
    _query_events ⟨"", "k", "", "Seoul", none,
        some ⟨some [⟨some ⟨some "N"⟩, some "u", some ⟨some "2025-01-02T10:00"⟩, none⟩,
          ⟨some ⟨some "N"⟩, some "u", some ⟨some "2025-01-02T10:00"⟩, some ⟨none⟩⟩]⟩⟩ =
      ⟨[⟨"N", "u", ("2025-01-02T10:00" : String).take 10, ""⟩,
        ⟨"N", "u", ("2025-01-02T10:00" : String).take 10, ""⟩], 1, 0⟩ ∧
    _query_news ⟨"k", "", "", "",
        some ⟨some [⟨none, some "u", some ⟨some "S"⟩⟩]⟩, none⟩ = ⟨[], 1, 1⟩ ∧
    _query_events ⟨"", "k", "", "Seoul", none,
        some ⟨some [⟨some ⟨none⟩, some "u", some ⟨some "2025-01-02T10:00"⟩, none⟩]⟩⟩ =
      ⟨[], 1, 1⟩ :=
  c4_defensive_fields_amended "k" "Seoul" "N" "u" "2025-01-02T10:00" "S"
    (by decide) (by decide)

/-- C5: a missing credential makes `_query_news` return the empty list
immediately with zero network calls and zero warnings, and
`_query_events` behaves the same when its credential is absent or the
location is empty. -/
theorem c5_missing_credential_no_call (env : Env) :
    (env.newsKey = "" → _query_news env = ⟨[], 0, 0⟩) ∧
    (env.eventKey = "" ∨ env.location = "" → _query_events env = ⟨[], 0, 0⟩) := by
  constructor
  · intro h
    unfold _query_news
    rw [if_pos h]
  · intro h
    unfold _query_events
    rw [if_pos h]

/-- Witness for C5: a configuration with no credentials at all. -/
theorem c5_missing_credential_no_call_witness :
    _query_news ⟨"", "", "designer", "", none, none⟩ = ⟨[], 0, 0⟩ ∧
    _query_events ⟨"", "", "designer", "", none, none⟩ = ⟨[], 0, 0⟩ :=
  ⟨(c5_missing_credential_no_call _).1 rfl,
   (c5_missing_credential_no_call _).2 (Or.inl rfl)⟩

/-- C6: routing is total — every input is classified as brief or plain
chat — and an input is classified as brief exactly when its
whitespace-stripped, lowercased text starts with the token "/brief"
(whatever trails the token is ignored). -/
theorem c6_routing_total_brief_iff (s : String) :
    (route s = Route.brief ∨ route s = Route.plainChat) ∧
    (route s = Route.brief ↔
      ∃ t, (pyStrip s.data).map Char.toLower = "/brief".data ++ t) := by
  have hiff : route s = Route.brief ↔ isBriefCmd s = true := by
    unfold route
    by_cases h : isBriefCmd s = true
    · rw [if_pos h]
      exact iff_of_true rfl h
    · rw [if_neg h]
      exact iff_of_false (by decide) h
  constructor
  · by_cases h : isBriefCmd s = true
    · exact Or.inl (by unfold route; rw [if_pos h])
    · exact Or.inr (by unfold route; rw [if_neg h])
  · exact hiff.trans (startsWithList_iff _ _)

/-- C7: the briefing augmentation is the deterministic template — the
base line, then the news section exactly when `news` is non-empty,
then the events section exactly when `events` is non-empty, then the
no-data marker exactly when both are empty, then the closing
instruction (so it always ends with the max-120-words bullet
instruction); every news item's title/source line and every event's
date/name/venue line occurs in the text. -/
theorem c7_briefing_template (news : List NewsItem) (events : List EventItem) :
    briefing_context news events =
      "You gathered the following data:\n\n" ++ newsSection news ++
        eventsSection events ++ noDataMarker news events ++ briefInstruction ∧
    (∀ n, n ∈ news → strContains (briefing_context news events) (newsLine n)) ∧
    (∀ e, e ∈ events → strContains (briefing_context news events) (eventLine e)) ∧
    ∃ p, briefing_context news events = p ++ briefInstruction := by
  refine ⟨briefing_context_eq news events, ?_, ?_,
    ⟨_, briefing_context_eq news events⟩⟩
  · intro n hn
    rw [briefing_context_eq]
    apply strContains_append_right
    apply strContains_append_right
    apply strContains_append_right
    apply strContains_append_left
    have hne : news ≠ [] := by
      intro h
      rw [h] at hn
      cases hn
    simp only [newsSection, if_neg hne]
    apply strContains_append_right
    apply strContains_append_left
    exact strContains_pyJoin _ _ _ (List.mem_map_of_mem newsLine hn)
  · intro e he
    rw [briefing_context_eq]
    apply strContains_append_right
    apply strContains_append_right
    apply strContains_append_left
    have hne : events ≠ [] := by
      intro h
      rw [h] at he
      cases he
    simp only [eventsSection, if_neg hne]
    apply strContains_append_right
    apply strContains_append_left
    exact strContains_pyJoin _ _ _ (List.mem_map_of_mem eventLine he)

/-- Witness for C7: one news item, no events. -/
theorem c7_briefing_template_witness :
    strContains (briefing_context [⟨"A", "u", "S"⟩] []) (newsLine ⟨"A", "u", "S"⟩) :=
  (c7_briefing_template [⟨"A", "u", "S"⟩] []).2.1 ⟨"A", "u", "S"⟩ (by decide)

/-- C8: a second aggregator call with the same (profession, location)
key — exact case-sensitive string equality — returns the identical
cached tuple with zero network calls and zero warnings and leaves the
cache unchanged, whatever the providers would now answer. -/
theorem c8_cache_hit_no_network (env env' : Env) (cache : Cache)
    (hp : env'.profession = env.profession) (hl : env'.location = env.location) :
    (fetch_news_and_events env' (fetch_news_and_events env cache).cache).result =
      (fetch_news_and_events env cache).result ∧
    (fetch_news_and_events env' (fetch_news_and_events env cache).cache).netCalls = 0 ∧
    (fetch_news_and_events env' (fetch_news_and_events env cache).cache).warnings = 0 ∧
    (fetch_news_and_events env' (fetch_news_and_events env cache).cache).cache =
      (fetch_news_and_events env cache).cache := by
  cases hcase : cacheLookup (env.profession, env.location) cache with
  | some r =>
    simp [fetch_news_and_events, hp, hl, hcase]
  | none =>
    simp [fetch_news_and_events, hp, hl, hcase, cacheLookup]

/-- Witness for C8: the first call succeeds, the second call's
providers would all error, yet the cached tuple is returned with no
network activity. -/
theorem c8_cache_hit_no_network_witness :
    (fetch_news_and_events ⟨"k", "", "designer", "Seoul", none, none⟩
        (fetch_news_and_events
          ⟨"k", "", "designer", "Seoul", some ⟨some []⟩, none⟩ []).cache).result =
      (fetch_news_and_events
        ⟨"k", "", "designer", "Seoul", some ⟨some []⟩, none⟩ []).result ∧
    (fetch_news_and_events ⟨"k", "", "designer", "Seoul", none, none⟩
        (fetch_news_and_events
          ⟨"k", "", "designer", "Seoul", some ⟨some []⟩, none⟩ []).cache).netCalls = 0 :=
  ⟨(c8_cache_hit_no_network ⟨"k", "", "designer", "Seoul", some ⟨some []⟩, none⟩
      ⟨"k", "", "designer", "Seoul", none, none⟩ [] rfl rfl).1,
   (c8_cache_hit_no_network ⟨"k", "", "designer", "Seoul", some ⟨some []⟩, none⟩
      ⟨"k", "", "designer", "Seoul", none, none⟩ [] rfl rfl).2.1⟩

/-- C9: the rendered turns are exactly the transcript with system
turns filtered out, in order, while the payload sent to the model is
the full transcript, system turns included. -/
theorem c9_visibility (msgs : List Turn) :
    displayLoop msgs = msgs.filter (fun m => !(m.role == "system")) ∧
    modelPayload msgs = msgs := by
  refine ⟨?_, modelPayload_eq msgs⟩
  induction msgs with
  | nil => rfl
  | cons m rest ih =>
    by_cases h : m.role = "system"
    · simp [displayLoop, h, List.filter_cons, ih]
    · simp [displayLoop, h, List.filter_cons, ih]

/-- C1: submitting "/brief" with profession and location set, when the
news fetch yields exactly one item and the events fetch yields none,
produces the transcript [base system turn, user "/brief", system
augmentation, assistant streamed text] — exactly 4 turns — where the
augmentation mentions the news item and consists of the news section
and the instruction only, with no events section. -/
theorem c1_end_to_end_brief (env : Env) (base streamed : String) (n : NewsItem)
    (hprof : env.profession ≠ "") (hloc : env.location ≠ "")
    (hn : (_query_news env).items = [n]) (he : (_query_events env).items = []) :
    (handleInput env ⟨[⟨"system", base⟩], []⟩ "/brief" streamed).messages =
      [⟨"system", base⟩, ⟨"user", "/brief"⟩,
        ⟨"system", briefing_context [n] []⟩, ⟨"assistant", streamed⟩] ∧
    (handleInput env ⟨[⟨"system", base⟩], []⟩ "/brief" streamed).messages.length = 4 ∧
    strContains (briefing_context [n] []) (newsLine n) ∧
    briefing_context [n] [] =
      "You gathered the following data:\n\n" ++
        ("Recent news headlines:\n" ++ newsLine n ++ "\n\n") ++ briefInstruction := by
  have hbrief : isBriefCmd "/brief" = true := by decide
  have hne : ("/brief" : String) ≠ "" := by decide
  have hmsg : (handleInput env ⟨[⟨"system", base⟩], []⟩ "/brief" streamed).messages =
      [⟨"system", base⟩, ⟨"user", "/brief"⟩,
        ⟨"system", briefing_context [n] []⟩, ⟨"assistant", streamed⟩] := by
    simp [handleInput, hne, hbrief, fetch_news_and_events, cacheLookup, hn, he]
  have h4 : briefing_context [n] [] =
      "You gathered the following data:\n\n" ++
        ("Recent news headlines:\n" ++ newsLine n ++ "\n\n") ++ briefInstruction := by
    simp [briefing_context, pyJoin, ← String.append_assoc]
  have h3 : strContains (briefing_context [n] []) (newsLine n) := by
    rw [h4]
    apply strContains_append_right
    apply strContains_append_left
    apply strContains_append_right
    apply strContains_append_left
    exact strContains_refl _
  exact ⟨hmsg, by rw [hmsg]; rfl, h3, h4⟩

/-- Witness for C1: a concrete provider yielding one article. -/
theorem c1_end_to_end_brief_witness :
    (handleInput ⟨"k", "", "UI/UX Designer", "Seoul",
        some ⟨some [⟨some "A", some "u", some ⟨some "S"⟩⟩]⟩, none⟩
        ⟨[⟨"system", "base"⟩], []⟩ "/brief" "ok").messages =
      [⟨"system", "base"⟩, ⟨"user", "/brief"⟩,
        ⟨"system", briefing_context [⟨"A", "u", "S"⟩] []⟩, ⟨"assistant", "ok"⟩] ∧
    (handleInput ⟨"k", "", "UI/UX Designer", "Seoul",
        some ⟨some [⟨some "A", some "u", some ⟨some "S"⟩⟩]⟩, none⟩
        ⟨[⟨"system", "base"⟩], []⟩ "/brief" "ok").messages.length = 4 ∧
    strContains (briefing_context [⟨"A", "u", "S"⟩] []) (newsLine ⟨"A", "u", "S"⟩) ∧
    briefing_context [⟨"A", "u", "S"⟩] [] =
      "You gathered the following data:\n\n" ++
        ("Recent news headlines:\n" ++ newsLine ⟨"A", "u", "S"⟩ ++ "\n\n") ++
        briefInstruction :=
  c1_end_to_end_brief
    ⟨"k", "", "UI/UX Designer", "Seoul",
      some ⟨some [⟨some "A", some "u", some ⟨some "S"⟩⟩]⟩, none⟩
    "base" "ok" ⟨"A", "u", "S"⟩ (by decide) (by decide) (by decide) (by decide)

/-- C10: every payload sent to the model during any continuation of a
session extends the transcript as it stood — so an augmentation turn
(and every earlier turn) already in the transcript is included in every
subsequent model invocation. -/
theorem c10_augmentation_persists (st : SessionState) (events : List InputEvent) :
    ∀ p, p ∈ runPayloads st events → ∃ tail, p = st.messages ++ tail := by
  induction events generalizing st with
  | nil =>
    intro p hp
    simp [runPayloads] at hp
  | cons ev rest ih =>
    intro p hp
    cases hpay : invocationPayload ev.env st ev.input with
    | none =>
      simp only [runPayloads, hpay, List.nil_append] at hp
      obtain ⟨t, ht⟩ := ih (handleInput ev.env st ev.input ev.streamed) p hp
      obtain ⟨t2, ht2⟩ := handleInput_messages ev.env st ev.input ev.streamed
      exact ⟨t2 ++ t, by rw [ht, ht2, List.append_assoc]⟩
    | some q =>
      simp only [runPayloads, hpay, List.singleton_append] at hp
      rcases List.mem_cons.mp hp with h | h
      · subst h
        exact invocationPayload_extends ev.env st ev.input _ hpay
      · obtain ⟨t, ht⟩ := ih (handleInput ev.env st ev.input ev.streamed) p h
        obtain ⟨t2, ht2⟩ := handleInput_messages ev.env st ev.input ev.streamed
        exact ⟨t2 ++ t, by rw [ht, ht2, List.append_assoc]⟩

/-- Witness for C10: a transcript holding an augmentation turn,
followed by one plain-chat input. -/
theorem c10_augmentation_persists_witness :
    ∃ tail,
      [(⟨"system", "aug"⟩ : Turn), ⟨"user", "hi"⟩] =
        [(⟨"system", "aug"⟩ : Turn)] ++ tail :=
  c10_augmentation_persists ⟨[⟨"system", "aug"⟩], []⟩
    [⟨⟨"", "", "", "", none, none⟩, "hi", "ok"⟩]
    [⟨"system", "aug"⟩, ⟨"user", "hi"⟩] (by decide)

end CareerMate
